import Mathlib

/-!
# warp/native/warp.h : the DLL-level runtime interface and the `wp::` dispatch layer

The header has two parts.

* Lines 15-112, `extern "C" { ... }`: declarations of the runtime entry points.
  Their bodies live in other translation units, so here the primitives the
  `wp::` layer calls are the fields of a `Runtime` record (a parameter of every
  definition that calls them), and the declarations themselves are transcribed
  as data in `warp_api`.
* Lines 114-131, `namespace wp`: `enum class DeviceType` and the explicit
  specialisations of `memcpy`, `alloc` and `free`.  These have bodies and are
  embedded as functions over a `Runtime`.

`void*` and `size_t` values are only passed through (no arithmetic is done on
them in this header), so both are natural numbers.
-/

namespace Warp

/-- A `void*` value. -/
abbrev Ptr := Nat

/-- A `size_t` value. -/
abbrev Size := Nat

/-! ## The runtime primitives called by `namespace wp` (warp.h 20-31) -/

/-- The `extern "C"` allocation, release and copy primitives of warp.h lines
20-31, over an arbitrary state `σ` of the process (heaps, streams, ...).
A `void` function is a state transformer; `alloc_*` also returns its pointer. -/
structure Runtime (σ : Type) where
  /-- Primitive `void* alloc_host(size_t s)` -/
  alloc_host : Size → σ → Ptr × σ
  /-- Primitive `void* alloc_device(size_t s)` -/
  alloc_device : Size → σ → Ptr × σ
  /-- Primitive `void free_host(void* ptr)` -/
  free_host : Ptr → σ → σ
  /-- Primitive `void free_device(void* ptr)` -/
  free_device : Ptr → σ → σ
  /-- Primitive `void memcpy_h2h(void* dest, void* src, size_t n)` -/
  memcpy_h2h : Ptr → Ptr → Size → σ → σ
  /-- Primitive `void memcpy_h2d(void* dest, void* src, size_t n)` -/
  memcpy_h2d : Ptr → Ptr → Size → σ → σ
  /-- Primitive `void memcpy_d2h(void* dest, void* src, size_t n)` -/
  memcpy_d2h : Ptr → Ptr → Size → σ → σ
  /-- Primitive `void memcpy_d2d(void* dest, void* src, size_t n)` -/
  memcpy_d2d : Ptr → Ptr → Size → σ → σ
  /-- Primitive `void memcpy_peer(void* dest, void* dest_ctx, void* src, void* src_ctx, size_t n)` -/
  memcpy_peer : Ptr → Ptr → Ptr → Ptr → Size → σ → σ

/-! ## `namespace wp` (warp.h 114-131) -/

namespace wp

/-- The enumeration `enum class DeviceType { CPU, CUDA };` (warp.h 116). -/
inductive DeviceType where
  | CPU
  | CUDA
  deriving DecidableEq, Repr

/-- The template
`template<DeviceType Source, DeviceType Target> void memcpy(void* dest, void* src, size_t n)`
with its four explicit specialisations (warp.h 118-122). -/
def memcpy {σ : Type} (rt : Runtime σ) :
    DeviceType → DeviceType → Ptr → Ptr → Size → σ → σ
  | .CPU,  .CPU,  dest, src, n => rt.memcpy_h2h dest src n
  | .CPU,  .CUDA, dest, src, n => rt.memcpy_h2d dest src n
  | .CUDA, .CPU,  dest, src, n => rt.memcpy_d2h dest src n
  | .CUDA, .CUDA, dest, src, n => rt.memcpy_d2d dest src n

/-- The template `template<DeviceType device> void* alloc(size_t s)` with its two explicit
specialisations (warp.h 124-126). -/
def alloc {σ : Type} (rt : Runtime σ) : DeviceType → Size → σ → Ptr × σ
  | .CPU,  s => rt.alloc_host s
  | .CUDA, s => rt.alloc_device s

/-- The template `template<DeviceType device> void free(void* ptr)` with its two explicit
specialisations (warp.h 128-130). -/
def free {σ : Type} (rt : Runtime σ) : DeviceType → Ptr → σ → σ
  | .CPU,  ptr => rt.free_host ptr
  | .CUDA, ptr => rt.free_device ptr

end wp

open wp (DeviceType)

/-! ## Observing calls: a recording instance of the primitives -/

/-- One call of a primitive of warp.h 20-31, with its arguments in
declaration order. -/
inductive Call where
  | alloc_host (s : Size)
  | alloc_device (s : Size)
  | free_host (ptr : Ptr)
  | free_device (ptr : Ptr)
  | memcpy_h2h (dest src : Ptr) (n : Size)
  | memcpy_h2d (dest src : Ptr) (n : Size)
  | memcpy_d2h (dest src : Ptr) (n : Size)
  | memcpy_d2d (dest src : Ptr) (n : Size)
  | memcpy_peer (dest dest_ctx src src_ctx : Ptr) (n : Size)
  deriving DecidableEq, Repr

/-- The names of the primitives of warp.h 20-31. -/
inductive Prim where
  | alloc_host | alloc_device | free_host | free_device
  | memcpy_h2h | memcpy_h2d | memcpy_d2h | memcpy_d2d | memcpy_peer
  deriving DecidableEq, Repr

/-- The primitive a call is a call of. -/
def Call.prim : Call → Prim
  | .alloc_host _ => .alloc_host
  | .alloc_device _ => .alloc_device
  | .free_host _ => .free_host
  | .free_device _ => .free_device
  | .memcpy_h2h _ _ _ => .memcpy_h2h
  | .memcpy_h2d _ _ _ => .memcpy_h2d
  | .memcpy_d2h _ _ _ => .memcpy_d2h
  | .memcpy_d2d _ _ _ => .memcpy_d2d
  | .memcpy_peer _ _ _ _ _ => .memcpy_peer

/-- The memory side a directional copy primitive reads from, as its name says
(`h` host, `d` device; `x2y` copies from x to y). -/
def Prim.sourceSide : Prim → Option DeviceType
  | .memcpy_h2h | .memcpy_h2d => some .CPU
  | .memcpy_d2h | .memcpy_d2d => some .CUDA
  | _ => none

/-- The memory side a directional copy primitive writes to, as its name says. -/
def Prim.destSide : Prim → Option DeviceType
  | .memcpy_h2h | .memcpy_d2h => some .CPU
  | .memcpy_h2d | .memcpy_d2d => some .CUDA
  | _ => none

/-- The device kind an allocator or release primitive belongs to, as its name
says (`_host` CPU, `_device` CUDA). -/
def Prim.kind : Prim → Option DeviceType
  | .alloc_host | .free_host => some .CPU
  | .alloc_device | .free_device => some .CUDA
  | _ => none

/-- The state of the recording instance: the calls made so far, oldest first,
and for each allocator the pointer its next call returns. -/
structure Log where
  calls : List Call
  next_host : Ptr
  next_device : Ptr
  deriving DecidableEq, Repr

/-- Append one call to the log. -/
def Log.record (l : Log) (c : Call) : Log := { l with calls := l.calls ++ [c] }

/-- An instance of the primitives that does nothing but record each call. Each
allocator hands out the next pointer of its own sequence. -/
def recorder : Runtime Log where
  alloc_host s l := (l.next_host, { (l.record (.alloc_host s)) with next_host := l.next_host + 1 })
  alloc_device s l :=
    (l.next_device, { (l.record (.alloc_device s)) with next_device := l.next_device + 1 })
  free_host ptr l := l.record (.free_host ptr)
  free_device ptr l := l.record (.free_device ptr)
  memcpy_h2h dest src n l := l.record (.memcpy_h2h dest src n)
  memcpy_h2d dest src n l := l.record (.memcpy_h2d dest src n)
  memcpy_d2h dest src n l := l.record (.memcpy_d2h dest src n)
  memcpy_d2d dest src n l := l.record (.memcpy_d2d dest src n)
  memcpy_peer dest dest_ctx src src_ctx n l := l.record (.memcpy_peer dest dest_ctx src src_ctx n)

/-- The log before any call: nothing recorded, both allocators at their first
pointer. -/
def Log.init : Log := { calls := [], next_host := 1, next_device := 1 }

/-- The primitives called between two states of the log, oldest first. -/
def primsCalled (before after : Log) : List Prim :=
  (after.calls.drop before.calls.length).map Call.prim

/-! ## The `extern "C"` declarations (warp.h 15-112), transcribed as data -/

/-- The C types that occur in the declarations of warp.h. `const T*` is
`ptr (const T)`, `void**` is `ptr (ptr void)`, `wp::vec3` is `vec3`. -/
inductive CType where
  | void | int | bool | float | char | size_t | uint64_t | vec3
  | ptr (t : CType)
  | const (t : CType)
  deriving DecidableEq, Repr

/-- One parameter of a declaration: its type and its name. -/
structure Param where
  type : CType
  name : String
  deriving DecidableEq, Repr

/-- One `WP_API` function declaration: return type, name, parameters in order. -/
structure Decl where
  ret : CType
  name : String
  params : List Param
  deriving DecidableEq, Repr

/-- The declarations of the `extern "C"` block of warp.h, in file order
(lines 17-110; the commented-out `shutdown` of line 18 is not a
declaration). -/
def warp_api : List Decl := [
  ⟨.int, "init", []⟩,
  ⟨.ptr .void, "alloc_host", [⟨.size_t, "s"⟩]⟩,
  ⟨.ptr .void, "alloc_device", [⟨.size_t, "s"⟩]⟩,
  ⟨.void, "free_host", [⟨.ptr .void, "ptr"⟩]⟩,
  ⟨.void, "free_device", [⟨.ptr .void, "ptr"⟩]⟩,
  ⟨.void, "memcpy_h2h", [⟨.ptr .void, "dest"⟩, ⟨.ptr .void, "src"⟩, ⟨.size_t, "n"⟩]⟩,
  ⟨.void, "memcpy_h2d", [⟨.ptr .void, "dest"⟩, ⟨.ptr .void, "src"⟩, ⟨.size_t, "n"⟩]⟩,
  ⟨.void, "memcpy_d2h", [⟨.ptr .void, "dest"⟩, ⟨.ptr .void, "src"⟩, ⟨.size_t, "n"⟩]⟩,
  ⟨.void, "memcpy_d2d", [⟨.ptr .void, "dest"⟩, ⟨.ptr .void, "src"⟩, ⟨.size_t, "n"⟩]⟩,
  ⟨.void, "memcpy_peer", [⟨.ptr .void, "dest"⟩, ⟨.ptr .void, "dest_ctx"⟩, ⟨.ptr .void, "src"⟩,
    ⟨.ptr .void, "src_ctx"⟩, ⟨.size_t, "n"⟩]⟩,
  ⟨.void, "memset_host", [⟨.ptr .void, "dest"⟩, ⟨.int, "value"⟩, ⟨.size_t, "n"⟩]⟩,
  ⟨.void, "memset_device", [⟨.ptr .void, "dest"⟩, ⟨.int, "value"⟩, ⟨.size_t, "n"⟩]⟩,
  ⟨.uint64_t, "mesh_create_host", [⟨.ptr .vec3, "points"⟩, ⟨.ptr .vec3, "velocities"⟩,
    ⟨.ptr .int, "tris"⟩, ⟨.int, "num_points"⟩, ⟨.int, "num_tris"⟩]⟩,
  ⟨.void, "mesh_destroy_host", [⟨.uint64_t, "id"⟩]⟩,
  ⟨.void, "mesh_refit_host", [⟨.uint64_t, "id"⟩]⟩,
  ⟨.uint64_t, "mesh_create_device", [⟨.ptr .vec3, "points"⟩, ⟨.ptr .vec3, "velocities"⟩,
    ⟨.ptr .int, "tris"⟩, ⟨.int, "num_points"⟩, ⟨.int, "num_tris"⟩]⟩,
  ⟨.void, "mesh_destroy_device", [⟨.uint64_t, "id"⟩]⟩,
  ⟨.void, "mesh_refit_device", [⟨.uint64_t, "id"⟩]⟩,
  ⟨.uint64_t, "hash_grid_create_host", [⟨.int, "dim_x"⟩, ⟨.int, "dim_y"⟩, ⟨.int, "dim_z"⟩]⟩,
  ⟨.void, "hash_grid_reserve_host", [⟨.uint64_t, "id"⟩, ⟨.int, "num_points"⟩]⟩,
  ⟨.void, "hash_grid_destroy_host", [⟨.uint64_t, "id"⟩]⟩,
  ⟨.void, "hash_grid_update_host", [⟨.uint64_t, "id"⟩, ⟨.float, "cell_width"⟩,
    ⟨.ptr (.const .vec3), "positions"⟩, ⟨.int, "num_points"⟩]⟩,
  ⟨.uint64_t, "hash_grid_create_device", [⟨.int, "dim_x"⟩, ⟨.int, "dim_y"⟩, ⟨.int, "dim_z"⟩]⟩,
  ⟨.void, "hash_grid_reserve_device", [⟨.uint64_t, "id"⟩, ⟨.int, "num_points"⟩]⟩,
  ⟨.void, "hash_grid_destroy_device", [⟨.uint64_t, "id"⟩]⟩,
  ⟨.void, "hash_grid_update_device", [⟨.uint64_t, "id"⟩, ⟨.float, "cell_width"⟩,
    ⟨.ptr (.const .vec3), "positions"⟩, ⟨.int, "num_points"⟩]⟩,
  ⟨.uint64_t, "volume_create_host", [⟨.ptr .void, "buf"⟩, ⟨.uint64_t, "size"⟩]⟩,
  ⟨.void, "volume_get_buffer_info_host", [⟨.uint64_t, "id"⟩, ⟨.ptr (.ptr .void), "buf"⟩,
    ⟨.ptr .uint64_t, "size"⟩]⟩,
  ⟨.void, "volume_destroy_host", [⟨.uint64_t, "id"⟩]⟩,
  ⟨.uint64_t, "volume_create_device", [⟨.ptr .void, "buf"⟩, ⟨.uint64_t, "size"⟩]⟩,
  ⟨.void, "volume_get_buffer_info_device", [⟨.uint64_t, "id"⟩, ⟨.ptr (.ptr .void), "buf"⟩,
    ⟨.ptr .uint64_t, "size"⟩]⟩,
  ⟨.void, "volume_destroy_device", [⟨.uint64_t, "id"⟩]⟩,
  ⟨.uint64_t, "marching_cubes_create_device", []⟩,
  ⟨.void, "marching_cubes_destroy_device", [⟨.uint64_t, "id"⟩]⟩,
  ⟨.int, "marching_cubes_surface_device", [⟨.uint64_t, "id"⟩, ⟨.ptr (.const .float), "field"⟩,
    ⟨.int, "nx"⟩, ⟨.int, "ny"⟩, ⟨.int, "nz"⟩, ⟨.float, "threshold"⟩, ⟨.ptr .vec3, "verts"⟩,
    ⟨.ptr .int, "triangles"⟩, ⟨.int, "max_verts"⟩, ⟨.int, "max_tris"⟩,
    ⟨.ptr .int, "out_num_verts"⟩, ⟨.ptr .int, "out_num_tris"⟩]⟩,
  ⟨.void, "array_inner_host", [⟨.uint64_t, "a"⟩, ⟨.uint64_t, "b"⟩, ⟨.uint64_t, "out"⟩,
    ⟨.int, "len"⟩]⟩,
  ⟨.void, "array_sum_host", [⟨.uint64_t, "a"⟩, ⟨.uint64_t, "out"⟩, ⟨.int, "len"⟩]⟩,
  ⟨.void, "array_inner_device", [⟨.uint64_t, "a"⟩, ⟨.uint64_t, "b"⟩, ⟨.uint64_t, "out"⟩,
    ⟨.int, "len"⟩]⟩,
  ⟨.void, "array_sum_device", [⟨.uint64_t, "a"⟩, ⟨.uint64_t, "out"⟩, ⟨.int, "len"⟩]⟩,
  ⟨.uint64_t, "cuda_check_device", []⟩,
  ⟨.int, "cuda_device_get_count", []⟩,
  ⟨.ptr .void, "cuda_device_get_primary_context", [⟨.int, "ordinal"⟩]⟩,
  ⟨.ptr (.const .char), "cuda_device_get_name", [⟨.int, "ordinal"⟩]⟩,
  ⟨.int, "cuda_device_get_arch", [⟨.int, "ordinal"⟩]⟩,
  ⟨.int, "cuda_device_is_uva", [⟨.int, "ordinal"⟩]⟩,
  ⟨.ptr .void, "cuda_context_get_current", []⟩,
  ⟨.void, "cuda_context_set_current", [⟨.ptr .void, "context"⟩]⟩,
  ⟨.void, "cuda_context_push_current", [⟨.ptr .void, "context"⟩]⟩,
  ⟨.void, "cuda_context_pop_current", []⟩,
  ⟨.ptr .void, "cuda_context_create", [⟨.int, "device_ordinal"⟩]⟩,
  ⟨.void, "cuda_context_destroy", [⟨.ptr .void, "context"⟩]⟩,
  ⟨.int, "cuda_context_get_device_ordinal", [⟨.ptr .void, "context"⟩]⟩,
  ⟨.int, "cuda_context_is_primary", [⟨.ptr .void, "context"⟩]⟩,
  ⟨.ptr .void, "cuda_context_get_stream", [⟨.ptr .void, "context"⟩]⟩,
  ⟨.int, "cuda_context_can_access_peer", [⟨.ptr .void, "context"⟩,
    ⟨.ptr .void, "peer_context"⟩]⟩,
  ⟨.int, "cuda_context_enable_peer_access", [⟨.ptr .void, "context"⟩,
    ⟨.ptr .void, "peer_context"⟩]⟩,
  ⟨.void, "cuda_context_synchronize", []⟩,
  ⟨.ptr .void, "cuda_stream_get_current", []⟩,
  ⟨.void, "cuda_graph_begin_capture", []⟩,
  ⟨.ptr .void, "cuda_graph_end_capture", []⟩,
  ⟨.void, "cuda_graph_launch", [⟨.ptr .void, "graph"⟩]⟩,
  ⟨.void, "cuda_graph_destroy", [⟨.ptr .void, "graph"⟩]⟩,
  ⟨.size_t, "cuda_compile_program", [⟨.ptr (.const .char), "cuda_src"⟩, ⟨.int, "arch"⟩,
    ⟨.ptr (.const .char), "include_dir"⟩, ⟨.bool, "debug"⟩, ⟨.bool, "verbose"⟩,
    ⟨.bool, "verify_fp"⟩, ⟨.ptr (.const .char), "output_file"⟩]⟩,
  ⟨.ptr .void, "cuda_load_module", [⟨.ptr (.const .char), "ptx"⟩]⟩,
  ⟨.void, "cuda_unload_module", [⟨.ptr .void, "module"⟩]⟩,
  ⟨.ptr .void, "cuda_get_kernel", [⟨.ptr .void, "module"⟩, ⟨.ptr (.const .char), "name"⟩]⟩,
  ⟨.size_t, "cuda_launch_kernel", [⟨.ptr .void, "kernel"⟩, ⟨.size_t, "dim"⟩,
    ⟨.ptr (.ptr .void), "args"⟩]⟩
]

/-- The declarations of the interface that carry the given name. -/
def declarations (name : String) : List Decl :=
  warp_api.filter (fun d => d.name == name)

/-- Whether the interface declares an entry point of the given name. -/
def declared (name : String) : Bool :=
  warp_api.any (fun d => d.name == name)

/-- A pointer type through which the callee can write a result back to the
caller: a pointer whose pointee is not `const`. -/
def CType.isOutPtr : CType → Bool
  | .ptr (.const _) => false
  | .ptr _ => true
  | _ => false

/-- Whether a C function of this declaration hands any value back to its
caller: a non-`void` return value, or a parameter it can write through. -/
def Decl.yieldsResult (d : Decl) : Bool :=
  d.ret != .void || d.params.any (fun p => p.type.isOutPtr)

/-- The object kinds of the claim about handle-based creates. -/
def handleKinds : List String := ["mesh", "hash_grid", "volume", "marching_cubes"]

/-- The residency forms of an entry point, as the suffix of its name. -/
def forms : List String := ["host", "device"]

/-- The name `<kind>_create_<form>`. -/
def createName (kind form : String) : String := kind ++ "_create_" ++ form

/-- The name `<kind>_destroy_<form>`. -/
def destroyName (kind form : String) : String := kind ++ "_destroy_" ++ form

/-- The destroy entry points of the interface, as the claim lists them. -/
def destroyEntryPoints : List String :=
  ["mesh_destroy_host", "mesh_destroy_device", "hash_grid_destroy_host",
   "hash_grid_destroy_device", "volume_destroy_host", "volume_destroy_device",
   "marching_cubes_destroy_device"]

/-! ## The context manager (warp.h 79, 84-87)

warp.h only declares these entry points; their bodies are in another
translation unit. The definitions of this section follow the specification
(sections 2, 3 and 4.2). -/

/-- Modelled from the spec: the per-thread state behind
`cuda_context_get_current`, `cuda_context_push_current` and
`cuda_context_pop_current`, whose bodies are not in warp.h. The spec has "a
thread-local stack of current context values": the list holds the contexts
pushed and not yet popped, most recent first. -/
structure ThreadState where
  stack : List Ptr
  deriving DecidableEq, Repr

/-- Modelled from the spec: the body of `void* cuda_context_get_current()` is
not in warp.h. The stack "records the currently active context", that is its
top; with nothing on the stack there is no current context. -/
def cuda_context_get_current (t : ThreadState) : Option Ptr :=
  t.stack.head?

/-- Modelled from the spec: the body of
`void cuda_context_push_current(void* context)` is not in warp.h. Push puts
the context on top of the thread's stack. -/
def cuda_context_push_current (context : Ptr) (t : ThreadState) : ThreadState :=
  { stack := context :: t.stack }

/-- Modelled from the spec: the body of `void cuda_context_pop_current()` is not
in warp.h. Pop removes the top of the thread's stack; "popping an empty stack
is an error", here `none`. -/
def cuda_context_pop_current (t : ThreadState) : Option ThreadState :=
  match t.stack with
  | [] => none
  | _ :: rest => some { stack := rest }

/-- Modelled from the spec: the driver call that creates or retains the primary
context of a device ordinal, over an arbitrary driver state `δ`; it is what
"lazily created" runs on the first request. -/
structure Driver (δ : Type) where
  primary_context_retain : Int → δ → Ptr × δ

/-- Modelled from the spec: the process state behind
`cuda_device_get_primary_context`, whose body is not in warp.h: the cache of
primary contexts ("at most one primary context per ordinal"), most recently
created first, and the state of the driver. -/
structure ContextCache (δ : Type) where
  primary : List (Int × Ptr)
  driver : δ

/-- The primary context cached for an ordinal, if one is. -/
def ContextCache.find {δ : Type} (s : ContextCache δ) (ordinal : Int) : Option Ptr :=
  (s.primary.find? (fun e => e.1 == ordinal)).map (fun e => e.2)

/-- Modelled from the spec: the body of
`void* cuda_device_get_primary_context(int ordinal)` is not in warp.h. It
"returns a cached singleton per ordinal, lazily created": a cached context is
returned as it is; otherwise the driver creates one, which is cached and
returned. -/
def cuda_device_get_primary_context {δ : Type} (drv : Driver δ) (ordinal : Int)
    (s : ContextCache δ) : Ptr × ContextCache δ :=
  match s.find ordinal with
  | some context => (context, s)
  | none =>
    let r := drv.primary_context_retain ordinal s.driver
    (r.1, { primary := (ordinal, r.1) :: s.primary, driver := r.2 })

/-- Requesting the primary contexts of a list of ordinals, one after the other;
the state after the last request. -/
def requestPrimaryContexts {δ : Type} (drv : Driver δ) :
    List Int → ContextCache δ → ContextCache δ
  | [], s => s
  | ordinal :: rest, s =>
    requestPrimaryContexts drv rest (cuda_device_get_primary_context drv ordinal s).2

/-- A driver for examples: it numbers the contexts it creates 1, 2, 3, ... -/
def countingDriver : Driver Nat where
  primary_context_retain _ k := (k + 1, k + 1)

/-! ## Theorems: the `wp::` dispatch layer -/

/-- Claim C1: for every pair (Source, Target) of device kinds and every dest,
src, n, `wp::memcpy<Source, Target>(dest, src, n)` is the directional copy
primitive from Source to Target applied to (dest, src, n): (CPU,CPU) is
`memcpy_h2h`, (CPU,CUDA) `memcpy_h2d`, (CUDA,CPU) `memcpy_d2h`, (CUDA,CUDA)
`memcpy_d2d`. This holds over every runtime; on the recording runtime the log
grows by exactly that one call, with the arguments unchanged and in order, and
the primitive called reads from the Source side and writes to the Target
side. -/
theorem memcpy_dispatches_by_source_and_target {σ : Type} (rt : Runtime σ)
    (dest src : Ptr) (n : Size) (l : Log) :
    (wp.memcpy rt .CPU .CPU dest src n = rt.memcpy_h2h dest src n
      ∧ wp.memcpy rt .CPU .CUDA dest src n = rt.memcpy_h2d dest src n
      ∧ wp.memcpy rt .CUDA .CPU dest src n = rt.memcpy_d2h dest src n
      ∧ wp.memcpy rt .CUDA .CUDA dest src n = rt.memcpy_d2d dest src n)
    ∧ ((wp.memcpy recorder .CPU .CPU dest src n l).calls
          = l.calls ++ [Call.memcpy_h2h dest src n]
      ∧ (wp.memcpy recorder .CPU .CUDA dest src n l).calls
          = l.calls ++ [Call.memcpy_h2d dest src n]
      ∧ (wp.memcpy recorder .CUDA .CPU dest src n l).calls
          = l.calls ++ [Call.memcpy_d2h dest src n]
      ∧ (wp.memcpy recorder .CUDA .CUDA dest src n l).calls
          = l.calls ++ [Call.memcpy_d2d dest src n])
    ∧ (∀ Source Target : DeviceType, ∃ c : Call,
        (wp.memcpy recorder Source Target dest src n l).calls = l.calls ++ [c]
        ∧ c.prim.sourceSide = some Source ∧ c.prim.destSide = some Target) := by
  refine ⟨⟨rfl, rfl, rfl, rfl⟩, ⟨rfl, rfl, rfl, rfl⟩, ?_⟩
  intro Source Target
  cases Source <;> cases Target <;> exact ⟨_, rfl, rfl, rfl⟩

/-- Claim C2, counterexample: `wp::memcpy<CPU, CUDA>(4096, 8192, 16)` calls
`memcpy_h2d(4096, 8192, 16)`, the host-to-accelerator transfer, and not
`memcpy_d2h`; so the first template argument is not the destination kind. -/
theorem memcpy_CPU_CUDA_is_not_d2h :
    (wp.memcpy recorder .CPU .CUDA 4096 8192 16 Log.init).calls = [Call.memcpy_h2d 4096 8192 16]
    ∧ (wp.memcpy recorder .CPU .CUDA 4096 8192 16 Log.init).calls
        ≠ [Call.memcpy_d2h 4096 8192 16] := by
  decide

/-- Claim C2, amended: the kind-parameterised copy takes the source kind first
and the target (destination) kind second: for every dest, src, n,
`wp::memcpy<CPU, CUDA>(dest, src, n)` performs the host-to-accelerator transfer
`memcpy_h2d(dest, src, n)` and `wp::memcpy<CUDA, CPU>(dest, src, n)` performs
the accelerator-to-host transfer `memcpy_d2h(dest, src, n)`. -/
theorem memcpy_takes_source_kind_first {σ : Type} (rt : Runtime σ)
    (dest src : Ptr) (n : Size) (l : Log) :
    wp.memcpy rt .CPU .CUDA dest src n = rt.memcpy_h2d dest src n
    ∧ wp.memcpy rt .CUDA .CPU dest src n = rt.memcpy_d2h dest src n
    ∧ (wp.memcpy recorder .CPU .CUDA dest src n l).calls
        = l.calls ++ [Call.memcpy_h2d dest src n]
    ∧ (wp.memcpy recorder .CUDA .CPU dest src n l).calls
        = l.calls ++ [Call.memcpy_d2h dest src n]
    ∧ Prim.sourceSide .memcpy_h2d = some .CPU ∧ Prim.destSide .memcpy_h2d = some .CUDA
    ∧ Prim.sourceSide .memcpy_d2h = some .CUDA ∧ Prim.destSide .memcpy_d2h = some .CPU :=
  ⟨rfl, rfl, rfl, rfl, rfl, rfl, rfl, rfl⟩

/-- Claim C3: allocation and release are matched by device kind. Over every
runtime, `wp::alloc<CPU>(s)` is `alloc_host(s)` (same result, same effect) and
`wp::alloc<CUDA>(s)` is `alloc_device(s)`; `wp::free<CPU>(ptr)` is
`free_host(ptr)` and `wp::free<CUDA>(ptr)` is `free_device(ptr)`. On the
recording runtime, `wp::alloc<k>` followed by `wp::free<k>` of the pointer it
returned makes exactly two calls, the allocator of kind k with the same s and
the release primitive of kind k with that pointer; the other kind's release
primitive is not called. -/
theorem alloc_and_free_matched_by_kind {σ : Type} (rt : Runtime σ)
    (s : Size) (ptr : Ptr) (l : Log) :
    (wp.alloc rt .CPU s = rt.alloc_host s
      ∧ wp.alloc rt .CUDA s = rt.alloc_device s
      ∧ wp.free rt .CPU ptr = rt.free_host ptr
      ∧ wp.free rt .CUDA ptr = rt.free_device ptr)
    ∧ ((wp.free recorder .CPU (wp.alloc recorder .CPU s l).1 (wp.alloc recorder .CPU s l).2).calls
          = l.calls ++ [Call.alloc_host s, Call.free_host (wp.alloc recorder .CPU s l).1]
      ∧ (wp.free recorder .CUDA (wp.alloc recorder .CUDA s l).1
            (wp.alloc recorder .CUDA s l).2).calls
          = l.calls ++ [Call.alloc_device s, Call.free_device (wp.alloc recorder .CUDA s l).1])
    ∧ (∀ k : DeviceType, ∃ a f : Call,
        (wp.alloc recorder k s l).2.calls = l.calls ++ [a]
        ∧ (wp.free recorder k ptr l).calls = l.calls ++ [f]
        ∧ a.prim.kind = some k ∧ f.prim.kind = some k)
    ∧ (∀ k : DeviceType,
        (primsCalled l
          (wp.free recorder k (wp.alloc recorder k s l).1 (wp.alloc recorder k s l).2)).map
            Prim.kind = [some k, some k]) := by
  refine ⟨⟨rfl, rfl, rfl, rfl⟩, ⟨?_, ?_⟩, ?_, ?_⟩
  · simp [wp.alloc, wp.free, recorder, Log.record]
  · simp [wp.alloc, wp.free, recorder, Log.record]
  · intro k
    cases k
    · exact ⟨Call.alloc_host s, Call.free_host ptr, rfl, rfl, rfl, rfl⟩
    · exact ⟨Call.alloc_device s, Call.free_device ptr, rfl, rfl, rfl, rfl⟩
  · intro k
    cases k <;>
      simp [primsCalled, wp.alloc, wp.free, recorder, Log.record, Call.prim, Prim.kind]

/-- The primitives called by one `wp::memcpy` on the recording runtime. -/
lemma primsCalled_memcpy (Source Target : DeviceType) (dest src : Ptr) (n : Size) (l : Log) :
    primsCalled l (wp.memcpy recorder Source Target dest src n l)
      = match Source, Target with
        | .CPU, .CPU => [Prim.memcpy_h2h]
        | .CPU, .CUDA => [Prim.memcpy_h2d]
        | .CUDA, .CPU => [Prim.memcpy_d2h]
        | .CUDA, .CUDA => [Prim.memcpy_d2d] := by
  cases Source <;> cases Target <;>
    simp [primsCalled, wp.memcpy, recorder, Log.record, Call.prim]

/-- The primitive called by one `wp::alloc` on the recording runtime. -/
lemma primsCalled_alloc (k : DeviceType) (s : Size) (l : Log) :
    primsCalled l (wp.alloc recorder k s l).2
      = match k with
        | .CPU => [Prim.alloc_host]
        | .CUDA => [Prim.alloc_device] := by
  cases k <;> simp [primsCalled, wp.alloc, recorder, Log.record, Call.prim]

/-- The primitive called by one `wp::free` on the recording runtime. -/
lemma primsCalled_free (k : DeviceType) (ptr : Ptr) (l : Log) :
    primsCalled l (wp.free recorder k ptr l)
      = match k with
        | .CPU => [Prim.free_host]
        | .CUDA => [Prim.free_device] := by
  cases k <;> simp [primsCalled, wp.free, recorder, Log.record, Call.prim]

/-- Claim C8: the kind-parameterised dispatch is total and injective.
`DeviceType` has exactly the two values CPU and CUDA. For each of the four
(Source, Target) pairs `wp::memcpy` is defined and calls exactly one primitive,
one of the four directional copies and never `memcpy_peer` (replacing
`memcpy_peer` in the runtime changes no `wp::memcpy`); for each of the two
kinds `wp::alloc` calls exactly one of the two allocators and `wp::free`
exactly one of the two release primitives. Two instantiations that call the
same primitive have the same template arguments, whatever their run-time
arguments are. -/
theorem dispatch_total_and_injective :
    ((∀ k : DeviceType, k = .CPU ∨ k = .CUDA) ∧ DeviceType.CPU ≠ DeviceType.CUDA)
    ∧ (∀ (Source Target : DeviceType) (dest src : Ptr) (n : Size) (l : Log), ∃ p : Prim,
        primsCalled l (wp.memcpy recorder Source Target dest src n l) = [p]
        ∧ p ∈ [Prim.memcpy_h2h, Prim.memcpy_h2d, Prim.memcpy_d2h, Prim.memcpy_d2d]
        ∧ p ≠ Prim.memcpy_peer)
    ∧ (∀ (k : DeviceType) (s : Size) (l : Log), ∃ p : Prim,
        primsCalled l (wp.alloc recorder k s l).2 = [p]
        ∧ p ∈ [Prim.alloc_host, Prim.alloc_device])
    ∧ (∀ (k : DeviceType) (ptr : Ptr) (l : Log), ∃ p : Prim,
        primsCalled l (wp.free recorder k ptr l) = [p]
        ∧ p ∈ [Prim.free_host, Prim.free_device])
    ∧ (∀ (S T S' T' : DeviceType) (dest src dest' src' : Ptr) (n n' : Size) (l l' : Log),
        primsCalled l (wp.memcpy recorder S T dest src n l)
          = primsCalled l' (wp.memcpy recorder S' T' dest' src' n' l')
        → S = S' ∧ T = T')
    ∧ (∀ (k k' : DeviceType) (s s' : Size) (l l' : Log),
        primsCalled l (wp.alloc recorder k s l).2 = primsCalled l' (wp.alloc recorder k' s' l').2
        → k = k')
    ∧ (∀ (k k' : DeviceType) (ptr ptr' : Ptr) (l l' : Log),
        primsCalled l (wp.free recorder k ptr l) = primsCalled l' (wp.free recorder k' ptr' l')
        → k = k')
    ∧ (∀ (σ : Type) (rt : Runtime σ) (peer : Ptr → Ptr → Ptr → Ptr → Size → σ → σ)
        (Source Target : DeviceType),
        wp.memcpy { rt with memcpy_peer := peer } Source Target = wp.memcpy rt Source Target) := by
  refine ⟨⟨?_, by decide⟩, ?_, ?_, ?_, ?_, ?_, ?_, ?_⟩
  · intro k; cases k <;> simp
  · intro Source Target dest src n l
    rw [primsCalled_memcpy]
    cases Source <;> cases Target <;> exact ⟨_, rfl, by decide, by decide⟩
  · intro k s l
    rw [primsCalled_alloc]
    cases k <;> exact ⟨_, rfl, by decide⟩
  · intro k ptr l
    rw [primsCalled_free]
    cases k <;> exact ⟨_, rfl, by decide⟩
  · intro S T S' T' dest src dest' src' n n' l l'
    rw [primsCalled_memcpy, primsCalled_memcpy]
    cases S <;> cases T <;> cases S' <;> cases T' <;> simp
  · intro k k' s s' l l'
    rw [primsCalled_alloc, primsCalled_alloc]
    cases k <;> cases k' <;> simp
  · intro k k' ptr ptr' l l'
    rw [primsCalled_free, primsCalled_free]
    cases k <;> cases k' <;> simp
  · intro σ rt peer Source Target
    cases Source <;> cases Target <;> rfl

/-- Claim C8, at concrete inputs: `wp::memcpy<CPU, CUDA>` and
`wp::memcpy<CUDA, CPU>` call different primitives, `alloc<CPU>` and
`alloc<CUDA>` call different allocators, `free<CPU>` and `free<CUDA>` different
release primitives, and none of the four copies calls `memcpy_peer`. -/
theorem dispatch_total_and_injective_witness :
    primsCalled Log.init (wp.memcpy recorder .CPU .CUDA 4096 8192 16 Log.init)
      ≠ primsCalled Log.init (wp.memcpy recorder .CUDA .CPU 4096 8192 16 Log.init)
    ∧ primsCalled Log.init (wp.alloc recorder .CPU 16 Log.init).2
      ≠ primsCalled Log.init (wp.alloc recorder .CUDA 16 Log.init).2
    ∧ primsCalled Log.init (wp.free recorder .CPU 4096 Log.init)
      ≠ primsCalled Log.init (wp.free recorder .CUDA 4096 Log.init)
    ∧ ∃ p : Prim, primsCalled Log.init (wp.memcpy recorder .CUDA .CUDA 4096 8192 16 Log.init) = [p]
        ∧ p ≠ Prim.memcpy_peer :=
  ⟨fun h => absurd (dispatch_total_and_injective.2.2.2.2.1 .CPU .CUDA .CUDA .CPU
      4096 8192 4096 8192 16 16 Log.init Log.init h).1 (by decide),
   fun h => absurd (dispatch_total_and_injective.2.2.2.2.2.1 .CPU .CUDA 16 16
      Log.init Log.init h) (by decide),
   fun h => absurd (dispatch_total_and_injective.2.2.2.2.2.2.1 .CPU .CUDA 4096 4096
      Log.init Log.init h) (by decide),
   (dispatch_total_and_injective.2.1 .CUDA .CUDA 4096 8192 16 Log.init).imp
      (fun _ hp => ⟨hp.1, hp.2.2⟩)⟩

/-! ## Theorems: the declared interface -/

/-- Claim C4, counterexample: marching_cubes is one of the object kinds whose
create returns a 64-bit handle (`uint64_t marching_cubes_create_device()`), and
the interface declares no `marching_cubes_create_host`. -/
theorem marching_cubes_create_host_not_declared :
    "marching_cubes" ∈ handleKinds
    ∧ (declarations "marching_cubes_create_device").map (fun d => d.ret) = [CType.uint64_t]
    ∧ declared "marching_cubes_create_host" = false := by
  decide

/-- Claim C4, amended: for the object kinds mesh, hash_grid and volume the
interface declares both `<kind>_create_host` and `<kind>_create_device`, each
once and returning a 64-bit handle, and a destroy of each form taking that
handle; marching_cubes is declared in the accelerator-resident form only
(`marching_cubes_create_device`, `marching_cubes_destroy_device`), with no host
create and no host destroy. These seven creates are all the handle-based
creates of the interface: the only other entry point returning `uint64_t` is
`cuda_check_device`. -/
theorem handle_creates_host_and_device_forms :
    (∀ kind ∈ ["mesh", "hash_grid", "volume"], ∀ form ∈ forms,
        (declarations (createName kind form)).map (fun d => d.ret) = [CType.uint64_t]
        ∧ declarations (destroyName kind form)
            = [⟨.void, destroyName kind form, [⟨.uint64_t, "id"⟩]⟩])
    ∧ (declarations (createName "marching_cubes" "device")).map (fun d => d.ret)
        = [CType.uint64_t]
    ∧ declarations (destroyName "marching_cubes" "device")
        = [⟨.void, "marching_cubes_destroy_device", [⟨.uint64_t, "id"⟩]⟩]
    ∧ declared (createName "marching_cubes" "host") = false
    ∧ declared (destroyName "marching_cubes" "host") = false
    ∧ (warp_api.filter (fun d => d.ret == CType.uint64_t)).map (fun d => d.name)
        = ["mesh_create_host", "mesh_create_device", "hash_grid_create_host",
           "hash_grid_create_device", "volume_create_host", "volume_create_device",
           "marching_cubes_create_device", "cuda_check_device"] := by
  decide

/-- Claim C5, counterexample: `mesh_destroy_host` is declared
`void mesh_destroy_host(uint64_t id)`: it has no return value and no parameter
it could write a result through, so it yields no result value that could
distinguish InvalidHandle from success. -/
theorem mesh_destroy_host_yields_no_result :
    declarations "mesh_destroy_host" = [⟨.void, "mesh_destroy_host", [⟨.uint64_t, "id"⟩]⟩]
    ∧ (declarations "mesh_destroy_host").map Decl.yieldsResult = [false] := by
  decide

/-- Claim C5, amended: each destroy entry point (mesh_destroy_host/device,
hash_grid_destroy_host/device, volume_destroy_host/device,
marching_cubes_destroy_device; these are all the `<kind>_destroy_<form>` names
the interface declares) is declared once, as `void f(uint64_t id)`: it takes the
handle by value and yields no result value to the caller, neither a return value
nor an out-parameter. -/
theorem destroy_entry_points_return_void :
    ((handleKinds.flatMap (fun kind => forms.map (destroyName kind))).filter declared
        = destroyEntryPoints)
    ∧ (∀ name ∈ destroyEntryPoints,
        declarations name = [⟨.void, name, [⟨.uint64_t, "id"⟩]⟩])
    ∧ (∀ name ∈ destroyEntryPoints, ∀ d ∈ declarations name, d.yieldsResult = false) := by
  decide

/-! ## Theorems: the context manager -/

/-- Claim C6: the current-context stack is restored by nested push/pop. For
every thread state t and context c, `cuda_context_push_current(c)` followed by
`cuda_context_pop_current()` succeeds and gives back t, so
`cuda_context_get_current()` has its value from before the push. For every c1,
c2: after push(c1), push(c2), pop() the current context is c1, and one more
pop() gives back t, so the context current before push(c1) is current again. -/
theorem context_push_pop_restores_current (t : ThreadState) (c c1 c2 : Ptr) :
    cuda_context_pop_current (cuda_context_push_current c t) = some t
    ∧ (cuda_context_pop_current (cuda_context_push_current c t)).map cuda_context_get_current
        = some (cuda_context_get_current t)
    ∧ (cuda_context_pop_current
          (cuda_context_push_current c2 (cuda_context_push_current c1 t))).map
          cuda_context_get_current
        = some (some c1)
    ∧ (cuda_context_pop_current
          (cuda_context_push_current c2 (cuda_context_push_current c1 t))).bind
          cuda_context_pop_current
        = some t
    ∧ ((cuda_context_pop_current
          (cuda_context_push_current c2 (cuda_context_push_current c1 t))).bind
          cuda_context_pop_current).map cuda_context_get_current
        = some (cuda_context_get_current t) :=
  ⟨rfl, rfl, rfl, rfl, rfl⟩

/-- After a request for the primary context of an ordinal, the cache holds the
context that request returned. -/
lemma find_after_get_primary_context {δ : Type} (drv : Driver δ) (ordinal : Int)
    (s : ContextCache δ) :
    (cuda_device_get_primary_context drv ordinal s).2.find ordinal
      = some (cuda_device_get_primary_context drv ordinal s).1 := by
  unfold cuda_device_get_primary_context
  cases h : s.find ordinal with
  | some context => simpa using h
  | none => simp [ContextCache.find]

/-- A cached primary context stays cached, unchanged, through a request for any
ordinal. -/
lemma find_preserved_by_get_primary_context {δ : Type} (drv : Driver δ) (ordinal other : Int)
    (s : ContextCache δ) (context : Ptr) (h : s.find ordinal = some context) :
    (cuda_device_get_primary_context drv other s).2.find ordinal = some context := by
  unfold cuda_device_get_primary_context
  cases h' : s.find other with
  | some c => simpa using h
  | none =>
    have hne : other ≠ ordinal := by
      rintro rfl
      rw [h] at h'
      cases h'
    simpa [ContextCache.find, List.find?_cons, hne] using h

/-- A cached primary context stays cached, unchanged, through any sequence of
requests. -/
lemma find_preserved_by_requests {δ : Type} (drv : Driver δ) (ordinal : Int) (context : Ptr)
    (others : List Int) (s : ContextCache δ) (h : s.find ordinal = some context) :
    (requestPrimaryContexts drv others s).find ordinal = some context := by
  induction others generalizing s with
  | nil => exact h
  | cons o rest ih =>
    exact ih _ (find_preserved_by_get_primary_context drv ordinal o s context h)

/-- A request for an ordinal whose primary context is cached returns the cached
context and leaves the state as it is. -/
lemma get_primary_context_of_cached {δ : Type} (drv : Driver δ) (ordinal : Int)
    (s : ContextCache δ) (context : Ptr) (h : s.find ordinal = some context) :
    cuda_device_get_primary_context drv ordinal s = (context, s) := by
  unfold cuda_device_get_primary_context
  rw [h]

/-- Claim C7: for every device ordinal, two calls of
`cuda_device_get_primary_context(ordinal)` return the identical context value.
The second call returns what the first returned and leaves the state as the
first left it (nothing new is created, the driver is not called again); and
the same context is returned when requests for any ordinals come between the
two calls. -/
theorem primary_context_is_cached_singleton {δ : Type} (drv : Driver δ) (ordinal : Int)
    (s : ContextCache δ) (between : List Int) :
    cuda_device_get_primary_context drv ordinal (cuda_device_get_primary_context drv ordinal s).2
      = ((cuda_device_get_primary_context drv ordinal s).1,
         (cuda_device_get_primary_context drv ordinal s).2)
    ∧ (cuda_device_get_primary_context drv ordinal
          (requestPrimaryContexts drv between
            (cuda_device_get_primary_context drv ordinal s).2)).1
        = (cuda_device_get_primary_context drv ordinal s).1 := by
  constructor
  · exact get_primary_context_of_cached drv ordinal _ _
      (find_after_get_primary_context drv ordinal s)
  · rw [get_primary_context_of_cached drv ordinal _ _
      (find_preserved_by_requests drv ordinal _ between _
        (find_after_get_primary_context drv ordinal s))]

/-- Claim C7, at a concrete input: with a driver that numbers the contexts it
creates 1, 2, 3, ..., the first request for ordinal 0 returns context 1, a
request for ordinal 1 returns context 2, and both a second request for ordinal
0 right after the first and one after the request for ordinal 1 return
context 1 again. -/
theorem primary_context_is_cached_singleton_witness :
    (cuda_device_get_primary_context countingDriver 0 ⟨[], 0⟩).1 = 1
    ∧ (cuda_device_get_primary_context countingDriver 1
        (cuda_device_get_primary_context countingDriver 0 ⟨[], 0⟩).2).1 = 2
    ∧ cuda_device_get_primary_context countingDriver 0
        (cuda_device_get_primary_context countingDriver 0 ⟨[], 0⟩).2
      = ((cuda_device_get_primary_context countingDriver 0 ⟨[], 0⟩).1,
         (cuda_device_get_primary_context countingDriver 0 ⟨[], 0⟩).2)
    ∧ (cuda_device_get_primary_context countingDriver 0
        (requestPrimaryContexts countingDriver [1]
          (cuda_device_get_primary_context countingDriver 0 ⟨[], 0⟩).2)).1
      = (cuda_device_get_primary_context countingDriver 0 ⟨[], 0⟩).1 :=
  ⟨by decide, by decide,
   (primary_context_is_cached_singleton countingDriver 0 ⟨[], 0⟩ [1]).1,
   (primary_context_is_cached_singleton countingDriver 0 ⟨[], 0⟩ [1]).2⟩

end Warp
